import Mathlib

/-!
Verification development for the MindMirror backend.

The repository contains two backend variants of the same feature set
(an audio-capable variant and a text-only variant); definitions below carry
a `V1` suffix for the audio-capable variant and a `V2` suffix for the
text-only variant whenever both variants define a function of the same name.

External JavaScript builtins (`String.prototype.includes`, `String.prototype.trim`,
`String.prototype.split`, regular-expression matching, `JSON.parse`,
`JSON.stringify`, `Date.toISOString`) are modelled explicitly; `JSON.parse`
is an injected parameter `parse` since its output is duck-typed and external.
-/

namespace MindMirror

/-- A JavaScript `Error` value, reduced to its `message` field — the only
field the source ever inspects. -/
structure JsError where
  message : String
deriving DecidableEq, Repr

/-- The backtick character, used by the markdown-fence regular expressions in
`gemini.js`. -/
def btChar : Char := Char.ofNat 96

/-- Whitespace class used by the `\s` regex class and by `String.prototype.trim`
(restricted to the ASCII whitespace characters that can occur here). -/
def jsWs (c : Char) : Bool :=
  c = ' ' || c = '\t' || c = '\n' || c = '\r' || c = Char.ofNat 11 || c = Char.ofNat 12

/-- `String.prototype.trim` on a character list: drop whitespace from both ends. -/
def jsTrimList (l : List Char) : List Char :=
  ((l.dropWhile jsWs).reverse.dropWhile jsWs).reverse

/-- Model of JavaScript `String.prototype.trim`. -/
def jsTrim (s : String) : String := ⟨jsTrimList s.data⟩

/-- Does `l` start with `pat`? (Helper for the substring check.) -/
def listStarts : List Char → List Char → Bool
  | [], _ => true
  | _ :: _, [] => false
  | p :: ps, c :: cs => p == c && listStarts ps cs

/-- Does `pat` occur as a contiguous run inside the list? -/
def listContains (pat : List Char) : List Char → Bool
  | [] => pat.isEmpty
  | c :: rest => listStarts pat (c :: rest) || listContains pat rest

/-- Model of JavaScript `String.prototype.includes`. -/
def jsIncludes (s pat : String) : Bool := listContains pat.data s.data

/-- Rate-limit classification used by `retryWithBackoff` (gemini.js lines 31-33):
`error.message` contains "429", "Too Many Requests" or "RESOURCE_EXHAUSTED". -/
def isRateLimited (e : JsError) : Bool :=
  jsIncludes e.message "429" || jsIncludes e.message "Too Many Requests" ||
    jsIncludes e.message "RESOURCE_EXHAUSTED"

/-! ### The fence-stripping regular expression

`gemini.js` extracts JSON from the model response with
`text.match(/` three backticks `(?:json)?\s*([\s\S]*?)` three backticks `/)`
in the audio-capable variant, and the same without `\s*` in the text-only
variant (`callGemini`).  The functions below implement that match exactly:
find the first opening fence, optionally consume `json` (greedy, with the
regex-engine fallback when the greedy path finds no closing fence), skip
`\s*` (variant 1 only), then lazily capture up to the next closing fence.
If the attempt at the first opening fence fails then no closing fence exists
after it, and no attempt at a later (necessarily overlapping) opening fence
can succeed either, so returning `none` in that case matches the engine. -/

/-- Find the first three-backtick fence; return the characters after it. -/
def findFence : List Char → Option (List Char)
  | [] => none
  | c :: rest =>
    if c = btChar ∧ rest.take 2 = [btChar, btChar] then some (rest.drop 2)
    else findFence rest

/-- Lazily capture characters up to the next three-backtick fence;
`none` when no closing fence exists. -/
def captureUntilFence : List Char → Option (List Char)
  | [] => none
  | c :: rest =>
    if c = btChar ∧ rest.take 2 = [btChar, btChar] then some []
    else (captureUntilFence rest).map (c :: ·)

/-- Capture group of the variant-1 fence regex (with `\s*`), or `none` when the
regex does not match. -/
def fenceCaptureV1 (s : String) : Option String :=
  match findFence s.data with
  | none => none
  | some rest =>
    let primary :=
      if rest.take 4 = "json".data then
        match captureUntilFence ((rest.drop 4).dropWhile jsWs) with
        | some cap => some cap
        | none => captureUntilFence (rest.dropWhile jsWs)
      else captureUntilFence (rest.dropWhile jsWs)
    primary.map (fun l => ⟨l⟩)

/-- Capture group of the variant-2 fence regex (no `\s*`), or `none` when the
regex does not match. -/
def fenceCaptureV2 (s : String) : Option String :=
  match findFence s.data with
  | none => none
  | some rest =>
    let primary :=
      if rest.take 4 = "json".data then
        match captureUntilFence (rest.drop 4) with
        | some cap => some cap
        | none => captureUntilFence rest
      else captureUntilFence rest
    primary.map (fun l => ⟨l⟩)

/-- The string handed to `JSON.parse` by the audio-capable variant:
the regex capture if the fence regex matched, else the raw text, trimmed.
(gemini.js lines 91-99, 176-182, 237-243.) -/
def extractJsonStr (s : String) : String := jsTrim ((fenceCaptureV1 s).getD s)

/-- The string handed to `JSON.parse` by `callGemini` in the text-only variant
(gemini.js lines 291-298). -/
def extractJsonStrV2 (s : String) : String := jsTrim ((fenceCaptureV2 s).getD s)

/-! ### retryWithBackoff (gemini.js lines 21-46) -/

/-- Outcome of a retried operation, together with the sleep delays performed
(in milliseconds, in order). -/
inductive RunResult (α : Type) where
  | ok (value : α) (delays : List Nat)
  | err (e : JsError) (delays : List Nat)
deriving DecidableEq, Repr

/-- The `for` loop of `retryWithBackoff`.  `fn i` is the outcome of the `i`-th
call of the operation; `remaining = maxRetries - attempt` counts loop
iterations left; `delays` accumulates the sleeps executed so far.  When the
loop ends the last error is thrown (`JsError "undefined"` models the
JavaScript `throw lastError` with `lastError` never assigned, reachable only
for `maxRetries = 0`). -/
def retryLoop {α : Type} (fn : Nat → Except JsError α) (maxRetries initialDelay : Nat) :
    Nat → Nat → Option JsError → List Nat → RunResult α
  | 0, _, lastError, delays => .err (lastError.getD ⟨"undefined"⟩) delays
  | remaining + 1, attempt, _, delays =>
    match fn attempt with
    | .ok v => .ok v delays
    | .error e =>
      if isRateLimited e then
        if attempt < maxRetries - 1 then
          retryLoop fn maxRetries initialDelay remaining (attempt + 1) (some e)
            (delays ++ [initialDelay * 2 ^ attempt])
        else
          retryLoop fn maxRetries initialDelay remaining (attempt + 1) (some e) delays
      else .err e delays

/-- `retryWithBackoff(fn, maxRetries, initialDelay)` from gemini.js:
retry rate-limited failures with exponential backoff, fail fast otherwise. -/
def retryWithBackoff {α : Type} (fn : Nat → Except JsError α)
    (maxRetries initialDelay : Nat) : RunResult α :=
  retryLoop fn maxRetries initialDelay maxRetries 0 none []

/-! ### Data model -/

/-- The duck-typed record produced by `JSON.parse` on a daily analysis
response: the six fields the prompts request and the routes persist. -/
structure AnalysisData where
  transcript : String
  primaryEmotion : String
  secondaryEmotion : Option String
  theme : String
  emotionalIntensity : String
  dailyInsight : String
deriving DecidableEq, Repr

/-- The record produced by `JSON.parse` on a weekly analysis response. -/
structure WeeklyData where
  dominantEmotions : List String
  dominantThemes : List String
  emotionalPattern : String
  weeklyInsight : String
  reflectiveQuestion : String
deriving DecidableEq, Repr

/-- A persisted reflection document (the Firestore `reflections` collection).
`createdAt` is the stored timestamp. -/
structure Reflection where
  userId : String
  date : String
  transcript : String
  primaryEmotion : String
  secondaryEmotion : Option String
  theme : String
  emotionalIntensity : String
  dailyInsight : String
  createdAt : Nat
deriving DecidableEq, Repr

/-- The result object returned by the gemini.js analysis functions:
`success` true with `data`, or `success` false with `error` and
(in the audio-capable variant) the optional `isRateLimited` flag
(absent modelled as `false`). -/
structure GeminiResult (α : Type) where
  success : Bool
  data : Option α
  error : Option String
  isRateLimited : Bool
deriving DecidableEq, Repr

/-! ### Prompt builders

The prompt templates below transcribe the string literals of gemini.js.
`JSON.stringify(x, null, 2)` is an external builtin and is modelled by the
explicit serializers `stringifySummariesV1` / `stringifySummariesV2`. -/

/-- One double-quote character. -/
def dq : String := String.singleton (Char.ofNat 34)

/-- Escape one character as inside a JSON string literal
(model of the escaping done by `JSON.stringify`). -/
def jsonEscapeChar (c : Char) : String :=
  if c = Char.ofNat 34 then "\\\""
  else if c = Char.ofNat 92 then "\\\\"
  else if c = '\n' then "\\n"
  else if c = '\r' then "\\r"
  else if c = '\t' then "\\t"
  else String.singleton c

/-- A JSON string literal for `s`. -/
def jsonQuote (s : String) : String :=
  dq ++ String.join (s.data.map jsonEscapeChar) ++ dq

/-- A JSON value for a nullable string. -/
def jsonOfOpt : Option String → String
  | none => "null"
  | some s => jsonQuote s

/-- Serialization of one element of the weekly summary built by the
audio-capable variant (gemini.js lines 137-144): date, emotions, theme,
intensity and the transcript truncated to 200 characters. -/
def stringifySummaryV1 (r : Reflection) : String :=
  "  \x7b\n    " ++ jsonQuote "date" ++ ": " ++ jsonQuote r.date ++ ",\n    " ++
    jsonQuote "primaryEmotion" ++ ": " ++ jsonQuote r.primaryEmotion ++ ",\n    " ++
    jsonQuote "secondaryEmotion" ++ ": " ++ jsonOfOpt r.secondaryEmotion ++ ",\n    " ++
    jsonQuote "theme" ++ ": " ++ jsonQuote r.theme ++ ",\n    " ++
    jsonQuote "intensity" ++ ": " ++ jsonQuote r.emotionalIntensity ++ ",\n    " ++
    jsonQuote "transcript" ++ ": " ++ jsonQuote (r.transcript.take 200) ++ "\n  \x7d"

/-- Model of `JSON.stringify(reflectionsSummary, null, 2)` in the
audio-capable variant. -/
def stringifySummariesV1 (rs : List Reflection) : String :=
  "[\n" ++ String.intercalate ",\n" (rs.map stringifySummaryV1) ++ "\n]"

/-- Serialization of one element of the weekly summary built by the text-only
variant (gemini.js lines 354-360): no transcript field. -/
def stringifySummaryV2 (r : Reflection) : String :=
  "  \x7b\n    " ++ jsonQuote "date" ++ ": " ++ jsonQuote r.date ++ ",\n    " ++
    jsonQuote "primaryEmotion" ++ ": " ++ jsonQuote r.primaryEmotion ++ ",\n    " ++
    jsonQuote "secondaryEmotion" ++ ": " ++ jsonOfOpt r.secondaryEmotion ++ ",\n    " ++
    jsonQuote "theme" ++ ": " ++ jsonQuote r.theme ++ ",\n    " ++
    jsonQuote "emotionalIntensity" ++ ": " ++ jsonQuote r.emotionalIntensity ++ "\n  \x7d"

/-- Model of `JSON.stringify(summary, null, 2)` in the text-only variant. -/
def stringifySummariesV2 (rs : List Reflection) : String :=
  "[\n" ++ String.intercalate ",\n" (rs.map stringifySummaryV2) ++ "\n]"

/-- The fixed audio prompt of `analyzeAudioReflection` (gemini.js lines 57-73). -/
def audioReflectionPrompt : String :=
  "You are a compassionate emotional awareness assistant for a reflection app called MindMirror. \n  \n" ++
  "Listen to this audio reflection and respond ONLY with valid JSON in this exact format:\n" ++
  "\x7b\n  " ++ jsonQuote "transcript" ++ ": " ++ jsonQuote "full transcription of the audio" ++ ",\n  " ++
  jsonQuote "primaryEmotion" ++ ": " ++ jsonQuote "the main emotion expressed (e.g., joy, sadness, anxiety, gratitude, frustration, hope, calm, overwhelm)" ++ ",\n  " ++
  jsonQuote "secondaryEmotion" ++ ": " ++ jsonQuote "a secondary emotion if present, or null" ++ ",\n  " ++
  jsonQuote "theme" ++ ": " ++ jsonQuote "the main theme (work, relationships, self, health, family, creativity, growth, finances)" ++ ",\n  " ++
  jsonQuote "emotionalIntensity" ++ ": " ++ jsonQuote "low, medium, or high" ++ ",\n  " ++
  jsonQuote "dailyInsight" ++ ": " ++ jsonQuote "A gentle 2-3 sentence reflection that helps the user notice patterns without giving advice. Focus on acknowledgment and awareness. Example: 'It sounds like you're carrying a lot right now. Taking time to notice these feelings is a meaningful step.'" ++ "\n\x7d\n\n" ++
  "Remember:\n- Never provide medical advice, diagnosis, or therapeutic recommendations\n" ++
  "- Keep the tone warm, supportive, and non-judgmental\n" ++
  "- Focus on reflection and awareness, not solutions\n" ++
  "- If the audio is unclear, do your best to transcribe what you can hear"

/-- The daily text prompt of the audio-capable variant's
`analyzeTextReflection` (gemini.js lines 212-228). -/
def textReflectionPromptV1 (textInput : String) : String :=
  "You are a compassionate emotional awareness assistant for MindMirror.\n\n" ++
  "Analyze this reflection text and respond ONLY with valid JSON:\n\n" ++
  dq ++ textInput ++ dq ++ "\n\nFormat:\n\x7b\n  " ++
  jsonQuote "transcript" ++ ": " ++ dq ++ textInput ++ dq ++ ",\n  " ++
  jsonQuote "primaryEmotion" ++ ": " ++ jsonQuote "main emotion" ++ ",\n  " ++
  jsonQuote "secondaryEmotion" ++ ": " ++ jsonQuote "secondary emotion or null" ++ ",\n  " ++
  jsonQuote "theme" ++ ": " ++ jsonQuote "main theme (work, relationships, self, health, family, creativity, growth, finances)" ++ ",\n  " ++
  jsonQuote "emotionalIntensity" ++ ": " ++ jsonQuote "low, medium, or high" ++ ",\n  " ++
  jsonQuote "dailyInsight" ++ ": " ++ jsonQuote "A gentle 2-3 sentence reflection focused on acknowledgment and awareness." ++ "\n\x7d\n\n" ++
  "Remember: No medical advice, diagnosis, or therapeutic recommendations. Focus on reflection and awareness."

/-- The weekly prompt of the audio-capable variant's `analyzeWeeklyPatterns`
(gemini.js lines 146-166). -/
def weeklyPromptV1 (reflections : List Reflection) : String :=
  "You are an emotional pattern analyst for MindMirror, a reflection app focused on self-awareness.\n\n" ++
  "Analyze these " ++ toString reflections.length ++
  " recent reflections and respond ONLY with valid JSON:\n\n" ++
  stringifySummariesV1 reflections ++ "\n\nRespond in this exact format:\n\x7b\n  " ++
  jsonQuote "dominantEmotions" ++ ": [" ++ jsonQuote "emotion1" ++ ", " ++ jsonQuote "emotion2" ++ "],\n  " ++
  jsonQuote "dominantThemes" ++ ": [" ++ jsonQuote "theme1" ++ ", " ++ jsonQuote "theme2" ++ "],\n  " ++
  jsonQuote "emotionalPattern" ++ ": " ++ jsonQuote "brief description of emotional fluctuations observed" ++ ",\n  " ++
  jsonQuote "weeklyInsight" ++ ": " ++ jsonQuote "A thoughtful 2-3 sentence observation about patterns noticed this week. Focus on what the person might want to be aware of, not what they should do." ++ ",\n  " ++
  jsonQuote "reflectiveQuestion" ++ ": " ++ jsonQuote "A single open-ended question to encourage deeper self-reflection" ++ "\n\x7d\n\n" ++
  "Guidelines:\n- Be descriptive, not prescriptive\n- Never provide medical advice or diagnosis\n" ++
  "- Focus on patterns and awareness\n- Keep the tone gentle and supportive\n" ++
  "- The reflective question should be thought-provoking but not intrusive"

/-- The daily text prompt of the text-only variant's `analyzeTextReflection`
(gemini.js lines 309-332). -/
def textReflectionPromptV2 (textInput : String) : String :=
  "\nYou are a compassionate emotional awareness assistant for a reflection app called MindMirror.\n\n" ++
  "Analyze the reflection below and respond ONLY with valid JSON.\n\nReflection:\n" ++
  dq ++ textInput ++ dq ++ "\n\nReturn EXACTLY this format:\n\x7b\n  " ++
  jsonQuote "transcript" ++ ": " ++ dq ++ textInput ++ dq ++ ",\n  " ++
  jsonQuote "primaryEmotion" ++ ": " ++ jsonQuote "one main emotion" ++ ",\n  " ++
  jsonQuote "secondaryEmotion" ++ ": " ++ jsonQuote "secondary emotion or null" ++ ",\n  " ++
  jsonQuote "theme" ++ ": " ++ jsonQuote "work | relationships | self | health | family | creativity | growth | finances" ++ ",\n  " ++
  jsonQuote "emotionalIntensity" ++ ": " ++ jsonQuote "low | medium | high" ++ ",\n  " ++
  jsonQuote "dailyInsight" ++ ": " ++ jsonQuote "A gentle 2-3 sentence reflection focused on awareness, not advice." ++ "\n\x7d\n\n" ++
  "Rules:\n- No medical advice\n- No diagnosis\n- No solutions\n- Only reflection and awareness\n"

/-- The weekly prompt of the text-only variant's `analyzeWeeklyPatterns`
(gemini.js lines 362-383). -/
def weeklyPromptV2 (reflections : List Reflection) : String :=
  "\nYou are an emotional pattern analyst for MindMirror.\n\n" ++
  "Analyze the following reflections and respond ONLY with valid JSON:\n\n" ++
  stringifySummariesV2 reflections ++ "\n\nReturn EXACTLY:\n\x7b\n  " ++
  jsonQuote "dominantEmotions" ++ ": [" ++ jsonQuote "emotion1" ++ ", " ++ jsonQuote "emotion2" ++ "],\n  " ++
  jsonQuote "dominantThemes" ++ ": [" ++ jsonQuote "theme1" ++ ", " ++ jsonQuote "theme2" ++ "],\n  " ++
  jsonQuote "emotionalPattern" ++ ": " ++ jsonQuote "brief description of patterns noticed" ++ ",\n  " ++
  jsonQuote "weeklyInsight" ++ ": " ++ jsonQuote "2-3 sentence reflective observation" ++ ",\n  " ++
  jsonQuote "reflectiveQuestion" ++ ": " ++ jsonQuote "one open-ended question" ++ "\n\x7d\n\n" ++
  "Rules:\n- Descriptive only\n- No advice\n- No diagnosis\n- Gentle, neutral tone\n"

/-! ### Analysis gateway, audio-capable variant (gemini.js lines 1-265)

The model transport (`model.generateContent`) is injected as
`generate : String → Nat → Except JsError String`: given the prompt, the
outcome of the `i`-th attempted call (the response text, or a thrown error).
`JSON.parse` is injected as `parse`. -/

/-- The user-facing rate-limit message. -/
def busyMessage : String :=
  "The AI service is temporarily busy. Please wait a moment and try again."

/-- The `catch` block shared by the three analysis functions of the
audio-capable variant (gemini.js lines 105-121, 188-203, 249-264): the final
error is classified by `429` / `RESOURCE_EXHAUSTED` only. -/
def rateLimitCatch {α : Type} (e : JsError) : GeminiResult α :=
  if jsIncludes e.message "429" || jsIncludes e.message "RESOURCE_EXHAUSTED" then
    ⟨false, none, some busyMessage, true⟩
  else
    ⟨false, none, some e.message, false⟩

/-- `analyzeAudioReflection` (gemini.js lines 54-122).  The audio payload is
carried inside `generate` (the transport closure captures the audio bytes). -/
def analyzeAudioReflection (generate : String → Nat → Except JsError String)
    (parse : String → Except JsError AnalysisData) : GeminiResult AnalysisData :=
  match retryWithBackoff (generate audioReflectionPrompt) 3 2000 with
  | .err e _ => rateLimitCatch e
  | .ok text _ =>
    match parse (extractJsonStr text) with
    | .ok a => ⟨true, some a, none, false⟩
    | .error e => rateLimitCatch e

/-- `analyzeTextReflection` of the audio-capable variant
(gemini.js lines 211-265). -/
def analyzeTextReflectionV1 (generate : String → Nat → Except JsError String)
    (parse : String → Except JsError AnalysisData) (textInput : String) :
    GeminiResult AnalysisData :=
  match retryWithBackoff (generate (textReflectionPromptV1 textInput)) 3 2000 with
  | .err e _ => rateLimitCatch e
  | .ok text _ =>
    match parse (extractJsonStr text) with
    | .ok a => ⟨true, some a, none, false⟩
    | .error e => rateLimitCatch e

/-- `analyzeWeeklyPatterns` of the audio-capable variant
(gemini.js lines 129-204): fails fast only when the reflection list is empty. -/
def analyzeWeeklyPatternsV1 (generate : String → Nat → Except JsError String)
    (parse : String → Except JsError WeeklyData) (reflections : List Reflection) :
    GeminiResult WeeklyData :=
  if reflections.length = 0 then
    ⟨false, none, some "No reflections to analyze", false⟩
  else
    match retryWithBackoff (generate (weeklyPromptV1 reflections)) 3 2000 with
    | .err e _ => rateLimitCatch e
    | .ok text _ =>
      match parse (extractJsonStr text) with
      | .ok d => ⟨true, some d, none, false⟩
      | .error e => rateLimitCatch e

/-! ### Analysis gateway, text-only variant (gemini.js lines 266-393) -/

/-- Result of `callGemini` together with the diagnostic log lines emitted
(the `console.error("JSON PARSE ERROR:", jsonStr)` channel). -/
structure CallResult (α : Type) where
  result : Except JsError α
  log : List String
deriving Repr

/-- `callGemini` (gemini.js lines 285-303): single transport call (no retry),
fence stripping, trim, parse; a parse failure logs the offending string and
throws `Error("Invalid AI response format")`; a transport error propagates. -/
def callGemini {α : Type} (transportResult : Except JsError String)
    (parse : String → Except JsError α) : CallResult α :=
  match transportResult with
  | .error e => ⟨.error e, []⟩
  | .ok text =>
    let jsonStr := (fenceCaptureV2 text).getD text
    match parse (jsTrim jsonStr) with
    | .ok v => ⟨.ok v, []⟩
    | .error _ => ⟨.error ⟨"Invalid AI response format"⟩, [jsonStr]⟩

/-- `analyzeTextReflection` of the text-only variant (gemini.js lines 308-341):
no retry, no rate-limit special case in the catch. -/
def analyzeTextReflectionV2 (generate : String → Except JsError String)
    (parse : String → Except JsError AnalysisData) (textInput : String) :
    GeminiResult AnalysisData :=
  match (callGemini (generate (textReflectionPromptV2 textInput)) parse).result with
  | .ok d => ⟨true, some d, none, false⟩
  | .error e => ⟨false, none, some e.message, false⟩

/-- `analyzeWeeklyPatterns` of the text-only variant
(gemini.js lines 346-392): fails fast when fewer than 3 reflections. -/
def analyzeWeeklyPatternsV2 (generate : String → Except JsError String)
    (parse : String → Except JsError WeeklyData) (reflections : List Reflection) :
    GeminiResult WeeklyData :=
  if reflections.length < 3 then
    ⟨false, none, some "Not enough reflections for weekly analysis", false⟩
  else
    match (callGemini (generate (weeklyPromptV2 reflections)) parse).result with
    | .ok d => ⟨true, some d, none, false⟩
    | .error e => ⟨false, none, some e.message, false⟩

/-! ### HTTP routes (the two `analysis.js` route variants)

Request body fields are `Option String` (`none` = absent); JavaScript
truthiness of a string field is `jsTruthyStr`.  The Firestore collection is a
list of `(id, document)` pairs; `db.collection(..).add` appends with the
store-assigned `newId`; the clock is injected as `nowIso`
(the value of `new Date().toISOString()`) and `createdAt`. -/

/-- Firestore `reflections` collection: store-assigned id paired with the
document. -/
abbrev Store := List (String × Reflection)

/-- JavaScript truthiness of a possibly-absent string field. -/
def jsTruthyStr : Option String → Bool
  | none => false
  | some s => s != ""

/-- `new Date().toISOString().split('T')[0]`: the characters before the first
`T` of the ISO timestamp. -/
def todayOf (nowIso : String) : String := ⟨nowIso.data.takeWhile (· != 'T')⟩

/-- An uploaded audio file (`req.file`): opaque buffer plus MIME type. -/
structure AudioFile where
  buffer : String
  mimeType : String
deriving DecidableEq, Repr

/-- Response sent by the daily-analysis routes, reduced to the fields the
claims are about.  `error`/`details` model the JSON body's fields (absent =
`none`; a body without a `success` key is modelled with `success := false`). -/
structure RouteResponse where
  status : Nat
  success : Bool
  error : Option String
  details : Option String
deriving DecidableEq, Repr

/-- The persisted `reflectionData` object built by both daily routes. -/
def mkReflection (userId dateStr : String) (d : AnalysisData) (createdAt : Nat) :
    Reflection :=
  ⟨userId, dateStr, d.transcript, d.primaryEmotion, d.secondaryEmotion, d.theme,
    d.emotionalIntensity, d.dailyInsight, createdAt⟩

/-- `POST /api/analyze-daily` of the audio-capable variant
(routes file, lines 21-71).  The analysis functions are injected, already
closed over transport and parser.  The (unreachable in practice) case of an
analysis reporting success without data models the route's outer catch of the
ensuing TypeError as a 500. -/
def analyzeDailyRouteV1 (audioAnalyze : AudioFile → GeminiResult AnalysisData)
    (textAnalyze : String → GeminiResult AnalysisData)
    (userId date textInput : Option String) (file : Option AudioFile)
    (nowIso : String) (createdAt : Nat) (newId : String) (store : Store) :
    RouteResponse × Store :=
  if !jsTruthyStr userId then
    (⟨400, false, some "User ID is required", none⟩, store)
  else
    let dateStr := match date with
      | some d => if d != "" then d else todayOf nowIso
      | none => todayOf nowIso
    let analysisOpt : Option (GeminiResult AnalysisData) :=
      match file with
      | some f => some (audioAnalyze f)
      | none =>
        match textInput with
        | some t => if t != "" then some (textAnalyze t) else none
        | none => none
    match analysisOpt with
    | none => (⟨400, false, some "Audio file or text input required", none⟩, store)
    | some analysis =>
      if !analysis.success then
        (⟨500, false, some "Analysis failed", analysis.error⟩, store)
      else
        match analysis.data with
        | some d =>
          (⟨200, true, none, none⟩,
            store ++ [(newId, mkReflection (userId.getD "") dateStr d createdAt)])
        | none => (⟨500, false, some "Failed to analyze reflection", none⟩, store)

/-- `POST /api/analyze-daily` of the text-only variant
(routes file, lines 235-287): requires both `userId` and `textInput`. -/
def analyzeDailyRouteV2 (textAnalyze : String → GeminiResult AnalysisData)
    (userId date textInput : Option String)
    (nowIso : String) (createdAt : Nat) (newId : String) (store : Store) :
    RouteResponse × Store :=
  if !jsTruthyStr userId || !jsTruthyStr textInput then
    (⟨400, false, some "userId and textInput are required", none⟩, store)
  else
    let dateStr := match date with
      | some d => if d != "" then d else todayOf nowIso
      | none => todayOf nowIso
    let analysis := textAnalyze (textInput.getD "")
    if !analysis.success then
      (⟨500, false, analysis.error, none⟩, store)
    else
      match analysis.data with
      | some d =>
        (⟨200, true, none, none⟩,
          store ++ [(newId, mkReflection (userId.getD "") dateStr d createdAt)])
      | none => (⟨500, false, some "Failed to analyze reflection", none⟩, store)

/-- Response of the weekly route. -/
structure WeeklyRouteResponse where
  status : Nat
  success : Bool
  hasEnoughData : Option Bool
  reflectionCount : Option Nat
  error : Option String
deriving DecidableEq, Repr

/-- `POST /api/analyze-weekly` of the audio-capable variant
(routes file, lines 132-193).  `reflections` is the result of the
`orderBy createdAt desc, limit 7` query (the query itself is the external
database).  The route enforces the at-least-3 gate before calling
`analyzeWeeklyPatterns`. -/
def analyzeWeeklyRouteV1 (weeklyAnalyze : List Reflection → GeminiResult WeeklyData)
    (userId : Option String) (reflections : List Reflection) : WeeklyRouteResponse :=
  if !jsTruthyStr userId then ⟨400, false, none, none, some "User ID is required"⟩
  else if reflections.isEmpty then ⟨200, true, some false, none, none⟩
  else if reflections.length < 3 then
    ⟨200, true, some false, some reflections.length, none⟩
  else
    let analysis := weeklyAnalyze reflections
    if !analysis.success then ⟨500, false, none, none, some "Weekly analysis failed"⟩
    else ⟨200, true, some true, some reflections.length, none⟩

/-- Response of the delete route. -/
structure DeleteResponse where
  status : Nat
  success : Bool
  message : Option String
  error : Option String
deriving DecidableEq, Repr

/-- `DELETE /api/reflection/:id` (routes file, lines 199-222): load the
document, 404 when absent, 403 when owned by a different user, else delete. -/
def deleteReflectionRoute (store : Store) (id userId : String) :
    DeleteResponse × Store :=
  match store.find? (fun p => p.1 == id) with
  | none => (⟨404, false, none, some "Reflection not found"⟩, store)
  | some p =>
    if p.2.userId != userId then (⟨403, false, none, some "Unauthorized"⟩, store)
    else (⟨200, true, some "Reflection deleted", none⟩,
      store.filter (fun q => q.1 != id))

/-! ### Concrete collaborators used in witnesses and counterexamples -/

/-- Operation failing rate-limited twice, then succeeding. -/
def retryWitnessFn : Nat → Except JsError Nat := fun n =>
  if n = 0 then .error ⟨"429 quota hit"⟩
  else if n = 1 then .error ⟨"Too Many Requests"⟩
  else .ok 7

/-- Operation failing once with a non-rate-limit error. -/
def failFastFn : Nat → Except JsError Nat := fun n =>
  if n = 0 then .error ⟨"invalid request"⟩ else .ok 1

/-- A toy `JSON.parse` accepting exactly one clean JSON object string. -/
def toyParse : String → Except JsError Nat := fun t =>
  if t = "\x7b\"ok\": true\x7d" then .ok 1 else .error ⟨"SyntaxError"⟩

/-- A `JSON.parse` that rejects every input. -/
def rejectAll : String → Except JsError AnalysisData := fun _ => .error ⟨"SyntaxError"⟩

/-- Transport failing every attempt with a `Too Many Requests` message
(no `429`, no `RESOURCE_EXHAUSTED`). -/
def genTMR : String → Nat → Except JsError String :=
  fun _ _ => .error ⟨"Too Many Requests"⟩

/-- Transport failing every attempt with a `429` message. -/
def gen429 : String → Nat → Except JsError String := fun _ _ => .error ⟨"429 quota"⟩

/-- A stored reflection for user `u` on date `d`. -/
def sampleReflection (u d : String) : Reflection :=
  ⟨u, d, "a calm day", "calm", none, "self", "low", "You noticed stillness.", 0⟩

/-- A concrete weekly analysis record. -/
def sampleWeekly : WeeklyData :=
  ⟨["calm"], ["self"], "steady", "A quiet week.", "What felt restful?"⟩

/-- Transport succeeding on the first attempt. -/
def genOKV1 : String → Nat → Except JsError String := fun _ _ => .ok "model output"

/-- Single-shot transport succeeding. -/
def genOKV2 : String → Except JsError String := fun _ => .ok "model output"

/-- Parser returning `sampleWeekly`. -/
def parseWeeklyOK : String → Except JsError WeeklyData := fun _ => .ok sampleWeekly

/-- A reflection owned by `alice`. -/
def docAlice : Reflection := sampleReflection "alice" "2026-01-01"

/-- Analysis data as produced from an audio upload. -/
def sampleAnalysisA : AnalysisData :=
  ⟨"audio transcript", "calm", none, "self", "low", "Noticing is a step."⟩

/-- Analysis data as produced from a text reflection. -/
def sampleAnalysisT : AnalysisData :=
  ⟨"text transcript", "joy", none, "work", "high", "Joy showed up today."⟩

/-- Audio gateway succeeding with `sampleAnalysisA`. -/
def audioOK : AudioFile → GeminiResult AnalysisData :=
  fun _ => ⟨true, some sampleAnalysisA, none, false⟩

/-- Text gateway succeeding with `sampleAnalysisT`. -/
def textOK : String → GeminiResult AnalysisData :=
  fun _ => ⟨true, some sampleAnalysisT, none, false⟩

/-- A concrete uploaded audio file. -/
def sampleFile : AudioFile := ⟨"bytes", "audio/webm"⟩

/-- A failed analysis result. -/
def failResult : GeminiResult AnalysisData := ⟨false, none, some "boom", false⟩

/-- A successful analysis result. -/
def okResult : GeminiResult AnalysisData := ⟨true, some sampleAnalysisT, none, false⟩

/-! ### Helper lemmas about the substring scan and the fence regex -/

lemma listContains_cons_false {pat : List Char} {c : Char} {rest : List Char}
    (h : listContains pat (c :: rest) = false) : listContains pat rest = false := by
  simp only [listContains, Bool.or_eq_false_iff] at h
  exact h.2

lemma listContains_append_left_false {pat : List Char} (a : List Char) {b : List Char}
    (h : listContains pat (a ++ b) = false) : listContains pat b = false := by
  induction a with
  | nil => exact h
  | cons c cs ih => exact ih (listContains_cons_false (by rwa [List.cons_append] at h))

lemma take2_eq {l : List Char} (h : l.take 2 = [btChar, btChar]) :
    ∃ r, l = btChar :: btChar :: r := by
  match l with
  | [] => simp at h
  | [x] => simp at h
  | x :: y :: r =>
    simp [List.take] at h
    exact ⟨r, by rw [h.1, h.2]⟩

lemma findFence_eq_none {l : List Char}
    (h : listContains [btChar, btChar, btChar] l = false) : findFence l = none := by
  induction l with
  | nil => rfl
  | cons c ls ih =>
    by_cases hcond : c = btChar ∧ ls.take 2 = [btChar, btChar]
    · exfalso
      obtain ⟨r, hr⟩ := take2_eq hcond.2
      subst hr
      rw [hcond.1] at h
      simp [listContains, listStarts] at h
    · simp only [findFence]
      rw [if_neg hcond]
      exact ih (listContains_cons_false h)

lemma captureUntilFence_append (l t : List Char)
    (h : listContains [btChar, btChar, btChar] (l ++ [btChar, btChar]) = false) :
    captureUntilFence (l ++ btChar :: btChar :: btChar :: t) = some l := by
  induction l with
  | nil =>
    simp [captureUntilFence, List.take]
  | cons c ls ih =>
    rw [List.cons_append]
    by_cases hcond :
        c = btChar ∧ (ls ++ btChar :: btChar :: btChar :: t).take 2 = [btChar, btChar]
    · exfalso
      obtain ⟨hc, ht⟩ := hcond
      subst hc
      match ls, h with
      | [], h => simp [listContains, listStarts] at h
      | [x], h =>
        have hx : x = btChar := by
          simpa [List.take] using ht
        subst hx
        simp [listContains, listStarts] at h
      | x :: y :: zs, h =>
        have hxy : x = btChar ∧ y = btChar := by
          simpa [List.take] using ht
        obtain ⟨hx, hy⟩ := hxy
        subst hx; subst hy
        simp [listContains, listStarts] at h
    · simp only [captureUntilFence]
      rw [if_neg hcond, ih (listContains_cons_false (by rwa [List.cons_append] at h))]
      rfl

lemma dropWhile_append_cons (p : Char → Bool) (a : List Char) (c : Char) (t : List Char)
    (hc : p c = false) :
    (a ++ c :: t).dropWhile p = a.dropWhile p ++ c :: t := by
  induction a with
  | nil => simp [List.dropWhile, hc]
  | cons x xs ih =>
    by_cases hx : p x <;> simp [List.dropWhile_cons, hx, ih]

lemma dropWhile_idem (p : Char → Bool) (l : List Char) :
    (l.dropWhile p).dropWhile p = l.dropWhile p := by
  induction l with
  | nil => rfl
  | cons x xs ih =>
    by_cases hx : p x <;> simp [List.dropWhile_cons, hx, ih]

lemma jsTrimList_dropWhile (l : List Char) :
    jsTrimList (l.dropWhile jsWs) = jsTrimList l := by
  simp [jsTrimList, dropWhile_idem]

lemma listContains_dropWhile_false {pat : List Char} (p : Char → Bool) (l e : List Char)
    (h : listContains pat (l ++ e) = false) :
    listContains pat (l.dropWhile p ++ e) = false := by
  apply listContains_append_left_false (l.takeWhile p)
  rw [← List.append_assoc, List.takeWhile_append_dropWhile]
  exact h

lemma take4_fence_ne_json {bd : List Char} (t : List Char)
    (hj : listStarts "json".data bd = false) :
    ¬ (bd ++ btChar :: btChar :: btChar :: t).take 4 = "json".data := by
  have hstr : "json".data = ['j', 's', 'o', 'n'] := rfl
  intro h
  rw [hstr] at h
  match bd, hj, h with
  | [], hj, h => simp [List.take] at h; exact absurd h.1 (by decide)
  | [a], hj, h =>
    simp [List.take] at h
    exact absurd h.2.1 (by decide)
  | [a, b], hj, h =>
    simp [List.take] at h
    exact absurd h.2.2.1 (by decide)
  | [a, b, c], hj, h =>
    simp [List.take] at h
    exact absurd h.2.2.2 (by decide)
  | a :: b :: c :: d :: rest, hj, h =>
    simp [List.take] at h
    rw [hstr] at hj
    simp [listStarts, h.1, h.2.1, h.2.2.1, h.2.2.2] at hj

lemma findFence_fence (r : List Char) :
    findFence (btChar :: btChar :: btChar :: r) = some r := by
  simp [findFence, List.take]

lemma fenceCaptureV1_eq (s : String) (rest : List Char)
    (hf : findFence s.data = some rest) :
    fenceCaptureV1 s =
      (if rest.take 4 = "json".data then
        match captureUntilFence ((rest.drop 4).dropWhile jsWs) with
        | some cap => some cap
        | none => captureUntilFence (rest.dropWhile jsWs)
      else captureUntilFence (rest.dropWhile jsWs)).map (fun l => (⟨l⟩ : String)) := by
  unfold fenceCaptureV1
  rw [hf]

lemma fenceCaptureV2_eq (s : String) (rest : List Char)
    (hf : findFence s.data = some rest) :
    fenceCaptureV2 s =
      (if rest.take 4 = "json".data then
        match captureUntilFence (rest.drop 4) with
        | some cap => some cap
        | none => captureUntilFence rest
      else captureUntilFence rest).map (fun l => (⟨l⟩ : String)) := by
  unfold fenceCaptureV2
  rw [hf]

lemma data_fenced_json (body : String) :
    ("```json" ++ body ++ "```").data =
      btChar :: btChar :: btChar ::
        ('j' :: 's' :: 'o' :: 'n' :: (body.data ++ btChar :: btChar :: btChar :: [])) := by
  rw [String.data_append, String.data_append]
  have h1 : "```json".data = btChar :: btChar :: btChar :: 'j' :: 's' :: 'o' :: 'n' :: [] := by
    decide
  have h2 : "```".data = btChar :: btChar :: btChar :: [] := by decide
  rw [h1, h2]
  simp

lemma data_fenced_plain (body : String) :
    ("```" ++ body ++ "```").data =
      btChar :: btChar :: btChar :: (body.data ++ btChar :: btChar :: btChar :: []) := by
  rw [String.data_append, String.data_append]
  have h2 : "```".data = btChar :: btChar :: btChar :: [] := by decide
  rw [h2]
  simp

lemma jsWs_btChar : jsWs btChar = false := by decide

lemma extractJsonStr_fenced_json (body : String)
    (h : listContains [btChar, btChar, btChar] (body.data ++ [btChar, btChar]) = false) :
    extractJsonStr ("```json" ++ body ++ "```") = jsTrim body := by
  have hfind : findFence ("```json" ++ body ++ "```").data =
      some ('j' :: 's' :: 'o' :: 'n' :: (body.data ++ btChar :: btChar :: btChar :: [])) := by
    rw [data_fenced_json]
    exact findFence_fence _
  have hcap : fenceCaptureV1 ("```json" ++ body ++ "```") =
      some ⟨body.data.dropWhile jsWs⟩ := by
    rw [fenceCaptureV1_eq _ _ hfind]
    have ht4 : ('j' :: 's' :: 'o' :: 'n' ::
        (body.data ++ btChar :: btChar :: btChar :: [])).take 4 = "json".data := rfl
    rw [if_pos ht4]
    have hdrop : ('j' :: 's' :: 'o' :: 'n' ::
        (body.data ++ btChar :: btChar :: btChar :: [])).drop 4 =
        body.data ++ btChar :: btChar :: btChar :: [] := rfl
    rw [hdrop, dropWhile_append_cons _ _ _ _ jsWs_btChar,
      captureUntilFence_append _ _ (listContains_dropWhile_false jsWs _ _ h)]
    rfl
  unfold extractJsonStr
  rw [hcap]
  show jsTrim ⟨body.data.dropWhile jsWs⟩ = jsTrim body
  unfold jsTrim
  rw [show (⟨body.data.dropWhile jsWs⟩ : String).data = body.data.dropWhile jsWs from rfl,
    jsTrimList_dropWhile]

lemma extractJsonStr_fenced_plain (body : String)
    (h : listContains [btChar, btChar, btChar] (body.data ++ [btChar, btChar]) = false)
    (hj : listStarts "json".data body.data = false) :
    extractJsonStr ("```" ++ body ++ "```") = jsTrim body := by
  have hfind : findFence ("```" ++ body ++ "```").data =
      some (body.data ++ btChar :: btChar :: btChar :: []) := by
    rw [data_fenced_plain]
    exact findFence_fence _
  have hcap : fenceCaptureV1 ("```" ++ body ++ "```") =
      some ⟨body.data.dropWhile jsWs⟩ := by
    rw [fenceCaptureV1_eq _ _ hfind]
    rw [if_neg (take4_fence_ne_json _ hj)]
    rw [dropWhile_append_cons _ _ _ _ jsWs_btChar,
      captureUntilFence_append _ _ (listContains_dropWhile_false jsWs _ _ h)]
    rfl
  unfold extractJsonStr
  rw [hcap]
  show jsTrim ⟨body.data.dropWhile jsWs⟩ = jsTrim body
  unfold jsTrim
  rw [show (⟨body.data.dropWhile jsWs⟩ : String).data = body.data.dropWhile jsWs from rfl,
    jsTrimList_dropWhile]

lemma extractJsonStrV2_fenced_json (body : String)
    (h : listContains [btChar, btChar, btChar] (body.data ++ [btChar, btChar]) = false) :
    extractJsonStrV2 ("```json" ++ body ++ "```") = jsTrim body := by
  have hfind : findFence ("```json" ++ body ++ "```").data =
      some ('j' :: 's' :: 'o' :: 'n' :: (body.data ++ btChar :: btChar :: btChar :: [])) := by
    rw [data_fenced_json]
    exact findFence_fence _
  have hcap : fenceCaptureV2 ("```json" ++ body ++ "```") = some ⟨body.data⟩ := by
    rw [fenceCaptureV2_eq _ _ hfind]
    have ht4 : ('j' :: 's' :: 'o' :: 'n' ::
        (body.data ++ btChar :: btChar :: btChar :: [])).take 4 = "json".data := rfl
    rw [if_pos ht4]
    have hdrop : ('j' :: 's' :: 'o' :: 'n' ::
        (body.data ++ btChar :: btChar :: btChar :: [])).drop 4 =
        body.data ++ btChar :: btChar :: btChar :: [] := rfl
    rw [hdrop, captureUntilFence_append _ _ h]
    rfl
  unfold extractJsonStrV2
  rw [hcap]
  rfl

lemma extractJsonStrV2_fenced_plain (body : String)
    (h : listContains [btChar, btChar, btChar] (body.data ++ [btChar, btChar]) = false)
    (hj : listStarts "json".data body.data = false) :
    extractJsonStrV2 ("```" ++ body ++ "```") = jsTrim body := by
  have hfind : findFence ("```" ++ body ++ "```").data =
      some (body.data ++ btChar :: btChar :: btChar :: []) := by
    rw [data_fenced_plain]
    exact findFence_fence _
  have hcap : fenceCaptureV2 ("```" ++ body ++ "```") = some ⟨body.data⟩ := by
    rw [fenceCaptureV2_eq _ _ hfind]
    rw [if_neg (take4_fence_ne_json _ hj)]
    rw [captureUntilFence_append _ _ h]
    rfl
  unfold extractJsonStrV2
  rw [hcap]
  rfl

lemma extractJsonStr_no_fence (s : String)
    (h : jsIncludes s "```" = false) :
    extractJsonStr s = jsTrim s ∧ extractJsonStrV2 s = jsTrim s := by
  have hc : listContains [btChar, btChar, btChar] s.data = false := by
    have hdq : "```".data = [btChar, btChar, btChar] := by decide
    unfold jsIncludes at h
    rwa [hdq] at h
  have hf := findFence_eq_none hc
  constructor
  · unfold extractJsonStr fenceCaptureV1
    rw [hf]
    rfl
  · unfold extractJsonStrV2 fenceCaptureV2
    rw [hf]
    rfl

lemma callGemini_parse_error {α : Type} (text : String)
    (parse : String → Except JsError α) (e : JsError)
    (hp : parse (extractJsonStrV2 text) = .error e) :
    callGemini (.ok text) parse =
      ⟨.error ⟨"Invalid AI response format"⟩, [(fenceCaptureV2 text).getD text]⟩ := by
  unfold callGemini
  show (match parse (jsTrim ((fenceCaptureV2 text).getD text)) with
    | Except.ok v => ({ result := Except.ok v, log := [] } : CallResult α)
    | Except.error _ =>
      { result := Except.error ⟨"Invalid AI response format"⟩,
        log := [(fenceCaptureV2 text).getD text] }) = _
  have hp' : parse (jsTrim ((fenceCaptureV2 text).getD text)) = .error e := hp
  rw [hp']

lemma takeWhile_append_stop (p : Char → Bool) (a : List Char) (c : Char) (t : List Char)
    (ha : a.all p = true) (hc : p c = false) : (a ++ c :: t).takeWhile p = a := by
  induction a with
  | nil => simp [List.takeWhile_cons, hc]
  | cons x xs ih =>
    simp only [List.all_cons, Bool.and_eq_true] at ha
    simp [List.takeWhile_cons, ha.1, ih ha.2]

lemma todayOf_split (d r : String) (hT : d.data.all (fun c => c != 'T') = true) :
    todayOf (d ++ "T" ++ r) = d := by
  unfold todayOf
  have hdata : (d ++ "T" ++ r).data = d.data ++ 'T' :: r.data := by
    rw [String.data_append, String.data_append]
    have h1 : "T".data = ['T'] := rfl
    rw [h1]
    simp
  rw [hdata, takeWhile_append_stop _ _ _ _ hT (by decide)]

/-! ### The claims -/

/-- C1 fails on the code: the audio-capable variant's `analyzeWeeklyPatterns`
guards only against an empty list, so a 2-element reflection list (fewer than
3) is not rejected with the insufficient-data failure — the weekly prompt is
built and the analysis proceeds (here, to success). -/
theorem claim1_counterexample :
    ([sampleReflection "u" "2026-01-01", sampleReflection "u" "2026-01-02"] :
      List Reflection).length < 3 ∧
    analyzeWeeklyPatternsV1 genOKV1 parseWeeklyOK
      [sampleReflection "u" "2026-01-01", sampleReflection "u" "2026-01-02"] =
      ⟨true, some sampleWeekly, none, false⟩ := by
  exact ⟨by decide, rfl⟩

/-- C1 amended: the text-only variant's `analyzeWeeklyPatterns` returns the
insufficient-data failure for every list of fewer than 3 reflections and
attempts analysis at exactly 3; the audio-capable variant's function fails
fast only on the empty list and otherwise proceeds (for any non-empty list),
its fewer-than-3 gate being enforced in the weekly route before the call
(below 3 fetched reflections the route's answer is independent of the
analyzer). -/
theorem claim1_amended :
    (∀ (gen : String → Except JsError String)
       (parse : String → Except JsError WeeklyData) (rs : List Reflection),
       rs.length < 3 →
       analyzeWeeklyPatternsV2 gen parse rs =
         ⟨false, none, some "Not enough reflections for weekly analysis", false⟩) ∧
    (∀ (rs : List Reflection) (w : WeeklyData), rs.length = 3 →
       analyzeWeeklyPatternsV2 genOKV2 (fun _ => .ok w) rs =
         ⟨true, some w, none, false⟩) ∧
    (∀ (gen : String → Nat → Except JsError String)
       (parse : String → Except JsError WeeklyData),
       analyzeWeeklyPatternsV1 gen parse [] =
         ⟨false, none, some "No reflections to analyze", false⟩) ∧
    (∀ (rs : List Reflection) (w : WeeklyData), rs ≠ [] →
       analyzeWeeklyPatternsV1 genOKV1 (fun _ => .ok w) rs =
         ⟨true, some w, none, false⟩) ∧
    (∀ (a1 a2 : List Reflection → GeminiResult WeeklyData) (u : Option String)
       (rs : List Reflection), rs.length < 3 →
       analyzeWeeklyRouteV1 a1 u rs = analyzeWeeklyRouteV1 a2 u rs) := by
  refine ⟨?_, ?_, ?_, ?_, ?_⟩
  · intro gen parse rs h
    unfold analyzeWeeklyPatternsV2
    rw [if_pos h]
  · intro rs w h
    unfold analyzeWeeklyPatternsV2
    rw [if_neg (by rw [h]; decide)]
    show (match (callGemini (genOKV2 (weeklyPromptV2 rs)) (fun _ => .ok w)).result with
      | Except.ok d => (⟨true, some d, none, false⟩ : GeminiResult WeeklyData)
      | Except.error e => ⟨false, none, some e.message, false⟩) = ⟨true, some w, none, false⟩
    rfl
  · intro gen parse
    rfl
  · intro rs w h
    unfold analyzeWeeklyPatternsV1
    rw [if_neg (by simpa using h)]
    show (match retryWithBackoff (genOKV1 (weeklyPromptV1 rs)) 3 2000 with
      | RunResult.err e _ => rateLimitCatch e
      | RunResult.ok text _ =>
        match (fun (_ : String) => Except.ok (ε := JsError) w) (extractJsonStr text) with
        | Except.ok d => (⟨true, some d, none, false⟩ : GeminiResult WeeklyData)
        | Except.error e => rateLimitCatch e) = ⟨true, some w, none, false⟩
    rfl
  · intro a1 a2 u rs h
    unfold analyzeWeeklyRouteV1
    by_cases hu : (!jsTruthyStr u) = true
    · rw [if_pos hu, if_pos hu]
    · rw [if_neg hu, if_neg hu]
      by_cases he : rs.isEmpty = true
      · rw [if_pos he, if_pos he]
      · rw [if_neg he, if_neg he, if_pos h, if_pos h]

/-- C1 witness: the text-only `analyzeWeeklyPatterns` rejects 2 reflections
and analyzes 3. -/
theorem claim1_witness :
    analyzeWeeklyPatternsV2 genOKV2 parseWeeklyOK
      [sampleReflection "u" "2026-01-01", sampleReflection "u" "2026-01-02"] =
      ⟨false, none, some "Not enough reflections for weekly analysis", false⟩ ∧
    analyzeWeeklyPatternsV2 genOKV2 (fun _ => .ok sampleWeekly)
      [sampleReflection "u" "2026-01-01", sampleReflection "u" "2026-01-02",
        sampleReflection "u" "2026-01-03"] =
      ⟨true, some sampleWeekly, none, false⟩ :=
  ⟨claim1_amended.1 genOKV2 parseWeeklyOK _ (by decide),
    claim1_amended.2.1 _ sampleWeekly (by decide)⟩

/-- C2: with `maxAttempts = 3`, an operation that fails rate-limited on its
first two attempts and succeeds on the third makes `retryWithBackoff` sleep
exactly twice, `initialDelay * 2 ^ 0` then `initialDelay * 2 ^ 1`
(i.e. `d` and `2 d`, so 2s then 4s at the default 2000 ms), and return the
success value. -/
theorem claim2_retry_backoff {α : Type} (fn : Nat → Except JsError α)
    (e0 e1 : JsError) (v : α) (d : Nat)
    (h0 : fn 0 = .error e0) (hr0 : isRateLimited e0 = true)
    (h1 : fn 1 = .error e1) (hr1 : isRateLimited e1 = true)
    (h2 : fn 2 = .ok v) :
    retryWithBackoff fn 3 d = .ok v [d * 2 ^ 0, d * 2 ^ 1] ∧
    retryWithBackoff fn 3 d = .ok v [d, d * 2] := by
  have hmain : retryWithBackoff fn 3 d = .ok v [d * 2 ^ 0, d * 2 ^ 1] := by
    simp [retryWithBackoff, retryLoop, h0, h1, h2, hr0, hr1]
  refine ⟨hmain, ?_⟩
  rw [hmain, pow_zero, pow_one, Nat.mul_one]

/-- C2 witness: two rate-limited failures then success, at the default
2000 ms: sleeps of 2000 and 4000, result 7. -/
theorem claim2_witness :
    retryWithBackoff retryWitnessFn 3 2000 = .ok 7 [2000, 4000] :=
  (claim2_retry_backoff retryWitnessFn ⟨"429 quota hit"⟩ ⟨"Too Many Requests"⟩ 7 2000
    rfl (by decide) rfl (by decide) rfl).2

/-- C3: an operation whose first failure is not classified rate-limited makes
`retryWithBackoff` rethrow that error at once: no sleep, and no further
attempt (the conclusion holds for every `fn` agreeing at index 0, so the
result does not depend on later attempts). -/
theorem claim3_fail_fast {α : Type} (fn : Nat → Except JsError α) (e : JsError)
    (m d : Nat) (hm : 0 < m)
    (h0 : fn 0 = .error e) (hnr : isRateLimited e = false) :
    retryWithBackoff fn m d = .err e [] := by
  obtain ⟨m', rfl⟩ : ∃ m', m = m' + 1 := ⟨m - 1, (Nat.succ_pred_eq_of_pos hm).symm⟩
  simp [retryWithBackoff, retryLoop, h0, hnr]

/-- C3 witness: a non-rate-limited first failure propagates with no sleeps. -/
theorem claim3_witness :
    retryWithBackoff failFastFn 3 2000 = .err ⟨"invalid request"⟩ [] :=
  claim3_fail_fast failFastFn ⟨"invalid request"⟩ 3 2000 (by decide) rfl (by decide)

/-- C4 fails on the code: an error whose message contains only
`Too Many Requests` (no `429`, no `RESOURCE_EXHAUSTED`) is classified
rate-limited by the retrier — so the retries are exhausted while the error is
still rate-limited — yet the gateway's catch block, which tests only `429` /
`RESOURCE_EXHAUSTED`, returns it as a plain failure with the underlying
message instead of the typed busy-message rate-limit result. -/
theorem claim4_counterexample :
    isRateLimited ⟨"Too Many Requests"⟩ = true ∧
    retryWithBackoff (genTMR (textReflectionPromptV1 "hi")) 3 2000 =
      .err ⟨"Too Many Requests"⟩ [2000, 4000] ∧
    analyzeTextReflectionV1 genTMR rejectAll "hi" =
      ⟨false, none, some "Too Many Requests", false⟩ ∧
    (analyzeTextReflectionV1 genTMR rejectAll "hi").isRateLimited = false ∧
    (analyzeTextReflectionV1 genTMR rejectAll "hi").error ≠ some busyMessage := by
  refine ⟨by decide, by decide, rfl, rfl, ?_⟩
  rw [show (analyzeTextReflectionV1 genTMR rejectAll "hi").error
      = some "Too Many Requests" from rfl]
  simp [busyMessage]

/-- C4 amended: for the audio-capable variant's daily gateways, when the
pipeline fails (retry exhaustion or parse failure) with final error `e`, the
result is the typed busy-message rate-limit failure exactly when `e.message`
contains `429` or `RESOURCE_EXHAUSTED`, and otherwise a plain failure carrying
the underlying message; a failed pipeline never yields a success. -/
theorem claim4_amended :
    (∀ (generate : String → Nat → Except JsError String)
       (parse : String → Except JsError AnalysisData) (textInput : String) (e : JsError),
       ((∃ ds, retryWithBackoff (generate (textReflectionPromptV1 textInput)) 3 2000 =
           .err e ds) ∨
        (∃ text ds, retryWithBackoff (generate (textReflectionPromptV1 textInput)) 3 2000 =
           .ok text ds ∧ parse (extractJsonStr text) = .error e)) →
       analyzeTextReflectionV1 generate parse textInput =
         (if jsIncludes e.message "429" || jsIncludes e.message "RESOURCE_EXHAUSTED" then
           ⟨false, none, some busyMessage, true⟩
         else ⟨false, none, some e.message, false⟩) ∧
       (analyzeTextReflectionV1 generate parse textInput).success = false) ∧
    (∀ (generate : String → Nat → Except JsError String)
       (parse : String → Except JsError AnalysisData) (e : JsError),
       ((∃ ds, retryWithBackoff (generate audioReflectionPrompt) 3 2000 = .err e ds) ∨
        (∃ text ds, retryWithBackoff (generate audioReflectionPrompt) 3 2000 =
           .ok text ds ∧ parse (extractJsonStr text) = .error e)) →
       analyzeAudioReflection generate parse =
         (if jsIncludes e.message "429" || jsIncludes e.message "RESOURCE_EXHAUSTED" then
           ⟨false, none, some busyMessage, true⟩
         else ⟨false, none, some e.message, false⟩) ∧
       (analyzeAudioReflection generate parse).success = false) := by
  constructor
  · intro generate parse textInput e hfail
    have hres : analyzeTextReflectionV1 generate parse textInput = rateLimitCatch e := by
      unfold analyzeTextReflectionV1
      rcases hfail with ⟨ds, hds⟩ | ⟨text, ds, hok, hparse⟩
      · rw [hds]
      · rw [hok]
        show (match parse (extractJsonStr text) with
          | Except.ok a => (⟨true, some a, none, false⟩ : GeminiResult AnalysisData)
          | Except.error e => rateLimitCatch e) = rateLimitCatch e
        rw [hparse]
    refine ⟨by rw [hres]; rfl, ?_⟩
    rw [hres]
    unfold rateLimitCatch
    by_cases hrl : jsIncludes e.message "429" || jsIncludes e.message "RESOURCE_EXHAUSTED"
    · rw [if_pos hrl]
    · rw [if_neg hrl]
  · intro generate parse e hfail
    have hres : analyzeAudioReflection generate parse = rateLimitCatch e := by
      unfold analyzeAudioReflection
      rcases hfail with ⟨ds, hds⟩ | ⟨text, ds, hok, hparse⟩
      · rw [hds]
      · rw [hok]
        show (match parse (extractJsonStr text) with
          | Except.ok a => (⟨true, some a, none, false⟩ : GeminiResult AnalysisData)
          | Except.error e => rateLimitCatch e) = rateLimitCatch e
        rw [hparse]
    refine ⟨by rw [hres]; rfl, ?_⟩
    rw [hres]
    unfold rateLimitCatch
    by_cases hrl : jsIncludes e.message "429" || jsIncludes e.message "RESOURCE_EXHAUSTED"
    · rw [if_pos hrl]
    · rw [if_neg hrl]

/-- C4 witness: a transport failing every attempt with a `429` message yields
the typed busy-message rate-limit failure. -/
theorem claim4_witness :
    analyzeTextReflectionV1 gen429 rejectAll "hi" = ⟨false, none, some busyMessage, true⟩ ∧
    (analyzeTextReflectionV1 gen429 rejectAll "hi").success = false := by
  have h := claim4_amended.1 gen429 rejectAll "hi" ⟨"429 quota"⟩
    (Or.inl ⟨[2000, 4000], by decide⟩)
  refine ⟨?_, h.2⟩
  rw [h.1]
  decide

/-- C5: when the fence-stripped, trimmed remainder of the model response does
not parse, `callGemini` fails with the `Invalid AI response format` error,
logs the offending stripped string for diagnostics, and never returns a
success; the text-only gateway then reports a failed result. -/
theorem claim5_parse_error {α : Type} (text : String)
    (parse : String → Except JsError α) (e : JsError)
    (hp : parse (extractJsonStrV2 text) = .error e) :
    callGemini (.ok text) parse =
      ⟨.error ⟨"Invalid AI response format"⟩, [(fenceCaptureV2 text).getD text]⟩ ∧
    (∀ v : α, (callGemini (.ok text) parse).result ≠ .ok v) ∧
    (∀ (gen : String → Except JsError String)
       (parse2 : String → Except JsError AnalysisData) (textInput : String),
       gen (textReflectionPromptV2 textInput) = .ok text →
       parse2 (extractJsonStrV2 text) = .error e →
       analyzeTextReflectionV2 gen parse2 textInput =
         ⟨false, none, some "Invalid AI response format", false⟩) := by
  have hcall := callGemini_parse_error text parse e hp
  refine ⟨hcall, ?_, ?_⟩
  · intro v
    rw [hcall]
    simp
  · intro gen parse2 textInput hgen hp2
    unfold analyzeTextReflectionV2
    rw [hgen, callGemini_parse_error text parse2 e hp2]

/-- C5 witness: an unparseable response makes `callGemini` fail with the
format error and log the offending string, and the gateway reports failure. -/
theorem claim5_witness :
    callGemini (.ok "not json at all") rejectAll =
      ⟨.error ⟨"Invalid AI response format"⟩, ["not json at all"]⟩ ∧
    analyzeTextReflectionV2 (fun _ => .ok "not json at all") rejectAll "hi" =
      ⟨false, none, some "Invalid AI response format", false⟩ := by
  have h := claim5_parse_error "not json at all" rejectAll ⟨"SyntaxError"⟩ rfl
  exact ⟨h.1, h.2.2 _ rejectAll "hi" rfl rfl⟩

/-- C6: on a single markdown-fenced block whose body contains no fence
(including at its junction with the closing fence) and does not itself begin
with the characters `json`, both extractors strip exactly one level of
fencing: the string reaching the parser is the trimmed body, so the fence
markers never reach the parser. -/
theorem claim6_fence_strip (body : String)
    (h : jsIncludes (body ++ "``") "```" = false)
    (hj : listStarts "json".data body.data = false) :
    extractJsonStr ("```json" ++ body ++ "```") = jsTrim body ∧
    extractJsonStrV2 ("```json" ++ body ++ "```") = jsTrim body ∧
    extractJsonStr ("```" ++ body ++ "```") = jsTrim body ∧
    extractJsonStrV2 ("```" ++ body ++ "```") = jsTrim body := by
  have hc : listContains [btChar, btChar, btChar] (body.data ++ [btChar, btChar]) = false := by
    have hdq : "```".data = [btChar, btChar, btChar] := by decide
    have hbb : (body ++ "``").data = body.data ++ [btChar, btChar] := by
      rw [String.data_append]
      have h2 : "``".data = [btChar, btChar] := by decide
      rw [h2]
    unfold jsIncludes at h
    rwa [hdq, hbb] at h
  exact ⟨extractJsonStr_fenced_json body hc, extractJsonStrV2_fenced_json body hc,
    extractJsonStr_fenced_plain body hc hj, extractJsonStrV2_fenced_plain body hc hj⟩

/-- C6 witness: the fenced block around a small JSON body is stripped by both
extractors and the trimmed body is the braces-only object. -/
theorem claim6_witness :
    extractJsonStr ("```json" ++ "\n\x7b \x7d\n" ++ "```") = jsTrim "\n\x7b \x7d\n" ∧
    extractJsonStrV2 ("```" ++ "\n\x7b \x7d\n" ++ "```") = jsTrim "\n\x7b \x7d\n" ∧
    jsTrim "\n\x7b \x7d\n" = "\x7b \x7d" :=
  ⟨(claim6_fence_strip "\n\x7b \x7d\n" (by decide) (by decide)).1,
    (claim6_fence_strip "\n\x7b \x7d\n" (by decide) (by decide)).2.2.2,
    by decide⟩

/-- C7: on input with no markdown fence anywhere, both extractors hand the
raw text to the parser unchanged apart from whitespace trimming; in
particular on already-trimmed clean JSON, extract-then-parse equals parsing
the raw text. -/
theorem claim7_extract_idempotent {α : Type} (s : String)
    (p : String → Except JsError α)
    (h : jsIncludes s "```" = false) :
    extractJsonStr s = jsTrim s ∧ extractJsonStrV2 s = jsTrim s ∧
    (jsTrim s = s → p (extractJsonStr s) = p s ∧ p (extractJsonStrV2 s) = p s) := by
  obtain ⟨h1, h2⟩ := extractJsonStr_no_fence s h
  exact ⟨h1, h2, fun ht => ⟨by rw [h1, ht], by rw [h2, ht]⟩⟩

/-- C7 witness: on a clean trimmed JSON object, extracting then parsing
equals parsing directly, and the toy parser accepts it. -/
theorem claim7_witness :
    toyParse (extractJsonStr "\x7b\"ok\": true\x7d") = toyParse "\x7b\"ok\": true\x7d" ∧
    toyParse "\x7b\"ok\": true\x7d" = .ok 1 :=
  ⟨((claim7_extract_idempotent "\x7b\"ok\": true\x7d" toyParse (by decide)).2.2
      (by decide)).1,
    rfl⟩

/-- C8: deleting a stored reflection owned by `userA` on behalf of a different
requesting user fails with 403 and leaves the store unchanged; with the
record present, the delete succeeds exactly when the record's `userId` equals
the requesting user; a missing id yields 404. -/
theorem claim8_delete_owned :
    (∀ (store : Store) (id uA uB : String) (pr : String × Reflection),
       store.find? (fun p => p.1 == id) = some pr → pr.2.userId = uA → uA ≠ uB →
       deleteReflectionRoute store id uB =
         (⟨403, false, none, some "Unauthorized"⟩, store)) ∧
    (∀ (store : Store) (id u : String) (pr : String × Reflection),
       store.find? (fun p => p.1 == id) = some pr →
       ((deleteReflectionRoute store id u).1.success = true ↔ pr.2.userId = u)) ∧
    (∀ (store : Store) (id u : String),
       store.find? (fun p => p.1 == id) = none →
       deleteReflectionRoute store id u =
         (⟨404, false, none, some "Reflection not found"⟩, store)) := by
  refine ⟨?_, ?_, ?_⟩
  · intro store id uA uB pr hfind hA hne
    unfold deleteReflectionRoute
    rw [hfind]
    have hbne : (pr.2.userId != uB) = true := by
      rw [hA]
      exact bne_iff_ne.mpr hne
    show (if pr.2.userId != uB then
        ((⟨403, false, none, some "Unauthorized"⟩ : DeleteResponse), store)
      else (⟨200, true, some "Reflection deleted", none⟩,
        store.filter (fun q => q.1 != id))) = _
    rw [if_pos hbne]
  · intro store id u pr hfind
    unfold deleteReflectionRoute
    rw [hfind]
    by_cases hq : pr.2.userId = u
    · simp [hq]
    · simp [bne_iff_ne.mpr hq, hq]
  · intro store id u hfind
    unfold deleteReflectionRoute
    rw [hfind]

/-- C8 witness: `bob` cannot delete `alice`'s reflection (403, store intact);
`alice` can; a missing id gives 404. -/
theorem claim8_witness :
    deleteReflectionRoute [("r1", docAlice)] "r1" "bob" =
      (⟨403, false, none, some "Unauthorized"⟩, [("r1", docAlice)]) ∧
    (deleteReflectionRoute [("r1", docAlice)] "r1" "alice").1.success = true ∧
    deleteReflectionRoute [("r1", docAlice)] "missing" "alice" =
      (⟨404, false, none, some "Reflection not found"⟩, [("r1", docAlice)]) :=
  ⟨claim8_delete_owned.1 [("r1", docAlice)] "r1" "alice" "bob" ("r1", docAlice)
      rfl rfl (by decide),
    (claim8_delete_owned.2.1 [("r1", docAlice)] "r1" "alice" ("r1", docAlice) rfl).mpr rfl,
    claim8_delete_owned.2.2 [("r1", docAlice)] "missing" "alice" rfl⟩

/-- C9 fails on the code: the audio-capable daily route does not require
exactly one input — a request carrying both an audio file and `textInput`
is accepted (200, the audio analysis is persisted), not rejected with 400. -/
theorem claim9_counterexample :
    analyzeDailyRouteV1 audioOK textOK (some "u1") (some "2026-01-05") (some "hello")
      (some sampleFile) "2026-01-05T12:00:00.000Z" 111 "id1" [] =
      (⟨200, true, none, none⟩,
        [("id1", mkReflection "u1" "2026-01-05" sampleAnalysisA 111)]) ∧
    (analyzeDailyRouteV1 audioOK textOK (some "u1") (some "2026-01-05") (some "hello")
      (some sampleFile) "2026-01-05T12:00:00.000Z" 111 "id1" []).1.status ≠ 400 := by
  exact ⟨rfl, by decide⟩

/-- C9 amended: both daily routes respond 400 when `userId` is missing (or
falsy); the audio-capable route responds 400 when neither an audio file nor a
truthy `textInput` is given, and ignores `textInput` whenever a file is
present (audio precedence); the text-only route responds 400 when either
`userId` or `textInput` is falsy; and an omitted `date` defaults to the date
part of the server's current UTC ISO timestamp. -/
theorem claim9_amended :
    (∀ (aa : AudioFile → GeminiResult AnalysisData)
       (ta : String → GeminiResult AnalysisData) (u date ti : Option String)
       (file : Option AudioFile) (n : String) (c : Nat) (i : String) (st : Store),
       jsTruthyStr u = false →
       analyzeDailyRouteV1 aa ta u date ti file n c i st =
         (⟨400, false, some "User ID is required", none⟩, st)) ∧
    (∀ (aa : AudioFile → GeminiResult AnalysisData)
       (ta : String → GeminiResult AnalysisData) (u date ti : Option String)
       (n : String) (c : Nat) (i : String) (st : Store),
       jsTruthyStr u = true → jsTruthyStr ti = false →
       analyzeDailyRouteV1 aa ta u date ti none n c i st =
         (⟨400, false, some "Audio file or text input required", none⟩, st)) ∧
    (∀ (ta : String → GeminiResult AnalysisData) (u date ti : Option String)
       (n : String) (c : Nat) (i : String) (st : Store),
       jsTruthyStr u = false ∨ jsTruthyStr ti = false →
       analyzeDailyRouteV2 ta u date ti n c i st =
         (⟨400, false, some "userId and textInput are required", none⟩, st)) ∧
    (∀ (aa : AudioFile → GeminiResult AnalysisData)
       (ta : String → GeminiResult AnalysisData) (u date t1 t2 : Option String)
       (f : AudioFile) (n : String) (c : Nat) (i : String) (st : Store),
       analyzeDailyRouteV1 aa ta u date t1 (some f) n c i st =
         analyzeDailyRouteV1 aa ta u date t2 (some f) n c i st) ∧
    (∀ (aa : AudioFile → GeminiResult AnalysisData)
       (ta : String → GeminiResult AnalysisData) (u : String) (ti : Option String)
       (f : AudioFile) (dA : AnalysisData) (er : Option String) (rl : Bool)
       (n : String) (c : Nat) (i : String) (st : Store),
       u ≠ "" → aa f = ⟨true, some dA, er, rl⟩ →
       analyzeDailyRouteV1 aa ta (some u) none ti (some f) n c i st =
         (⟨200, true, none, none⟩,
           st ++ [(i, mkReflection u (todayOf n) dA c)])) ∧
    (∀ (ta : String → GeminiResult AnalysisData) (u t : String)
       (dA : AnalysisData) (er : Option String) (rl : Bool)
       (n : String) (c : Nat) (i : String) (st : Store),
       u ≠ "" → t ≠ "" → ta t = ⟨true, some dA, er, rl⟩ →
       analyzeDailyRouteV2 ta (some u) none (some t) n c i st =
         (⟨200, true, none, none⟩,
           st ++ [(i, mkReflection u (todayOf n) dA c)])) ∧
    (∀ (d r : String), d.data.all (fun c => c != 'T') = true →
       todayOf (d ++ "T" ++ r) = d) := by
  refine ⟨?_, ?_, ?_, ?_, ?_, ?_, todayOf_split⟩
  · intro aa ta u date ti file n c i st hu
    simp [analyzeDailyRouteV1, hu]
  · intro aa ta u date ti n c i st hu hti
    cases ti with
    | none => simp [analyzeDailyRouteV1, hu]
    | some t =>
      have ht : (t != "") = false := hti
      simp [analyzeDailyRouteV1, hu, ht]
  · intro ta u date ti n c i st h
    rcases h with hu | hti
    · simp [analyzeDailyRouteV2, hu]
    · simp [analyzeDailyRouteV2, hti]
  · intro aa ta u date t1 t2 f n c i st
    rfl
  · intro aa ta u ti f dA er rl n c i st hu haa
    have hu' : jsTruthyStr (some u) = true := bne_iff_ne.mpr hu
    simp [analyzeDailyRouteV1, hu', haa]
  · intro ta u t dA er rl n c i st hu ht hta
    have hu' : jsTruthyStr (some u) = true := bne_iff_ne.mpr hu
    have ht' : jsTruthyStr (some t) = true := bne_iff_ne.mpr ht
    simp [analyzeDailyRouteV2, hu', ht', hta]

/-- C9 witness: a missing `userId` is rejected with 400, and an omitted
`date` is stored as the date part of the injected UTC timestamp. -/
theorem claim9_witness :
    analyzeDailyRouteV1 audioOK textOK none none (some "hello") none
      "2026-01-05T12:00:00.000Z" 5 "id9" [] =
      (⟨400, false, some "User ID is required", none⟩, []) ∧
    analyzeDailyRouteV2 textOK (some "u1") none (some "hello")
      "2026-01-05T12:00:00.000Z" 5 "id9" [] =
      (⟨200, true, none, none⟩,
        [("id9", mkReflection "u1" "2026-01-05" sampleAnalysisT 5)]) := by
  constructor
  · exact claim9_amended.1 audioOK textOK none none (some "hello") none
      "2026-01-05T12:00:00.000Z" 5 "id9" [] rfl
  · have h := claim9_amended.2.2.2.2.2.1 textOK "u1" "hello" sampleAnalysisT none false
      "2026-01-05T12:00:00.000Z" 5 "id9" [] (by decide) (by decide) rfl
    rw [show todayOf "2026-01-05T12:00:00.000Z" = "2026-01-05" from rfl] at h
    exact h

/-- C10: on both daily routes, when the analysis result is a failure the
route responds 500 and the reflections store is unchanged; a record is
appended exactly when the analysis succeeded. -/
theorem claim10_persist_iff :
    (∀ (res : GeminiResult AnalysisData) (u date ti : Option String)
       (file : Option AudioFile) (n : String) (c : Nat) (i : String) (st : Store),
       jsTruthyStr u = true → (file ≠ none ∨ jsTruthyStr ti = true) →
       res.success = false →
       analyzeDailyRouteV1 (fun _ => res) (fun _ => res) u date ti file n c i st =
         (⟨500, false, some "Analysis failed", res.error⟩, st)) ∧
    (∀ (res : GeminiResult AnalysisData) (u date ti : Option String)
       (file : Option AudioFile) (n : String) (c : Nat) (i : String) (st : Store)
       (dA : AnalysisData),
       jsTruthyStr u = true → (file ≠ none ∨ jsTruthyStr ti = true) →
       res.success = true → res.data = some dA →
       ∃ rec, analyzeDailyRouteV1 (fun _ => res) (fun _ => res) u date ti file n c i st =
         (⟨200, true, none, none⟩, st ++ [(i, rec)])) ∧
    (∀ (res : GeminiResult AnalysisData) (u date ti : Option String)
       (n : String) (c : Nat) (i : String) (st : Store),
       jsTruthyStr u = true → jsTruthyStr ti = true → res.success = false →
       analyzeDailyRouteV2 (fun _ => res) u date ti n c i st =
         (⟨500, false, res.error, none⟩, st)) ∧
    (∀ (res : GeminiResult AnalysisData) (u date ti : Option String)
       (n : String) (c : Nat) (i : String) (st : Store) (dA : AnalysisData),
       jsTruthyStr u = true → jsTruthyStr ti = true →
       res.success = true → res.data = some dA →
       ∃ rec, analyzeDailyRouteV2 (fun _ => res) u date ti n c i st =
         (⟨200, true, none, none⟩, st ++ [(i, rec)])) := by
  refine ⟨?_, ?_, ?_, ?_⟩
  · intro res u date ti file n c i st hu hin hs
    cases file with
    | some f => simp [analyzeDailyRouteV1, hu, hs]
    | none =>
      have hti : jsTruthyStr ti = true := by
        rcases hin with hf | hti
        · exact absurd rfl hf
        · exact hti
      cases ti with
      | none => exact absurd hti (by simp [jsTruthyStr])
      | some t =>
        have ht : (t != "") = true := hti
        simp [analyzeDailyRouteV1, hu, ht, hs]
  · intro res u date ti file n c i st dA hu hin hs hd
    cases file with
    | some f =>
      refine ⟨mkReflection (u.getD "")
        (match date with
          | some d => if d != "" then d else todayOf n
          | none => todayOf n) dA c, ?_⟩
      simp [analyzeDailyRouteV1, hu, hs, hd]
    | none =>
      have hti : jsTruthyStr ti = true := by
        rcases hin with hf | hti
        · exact absurd rfl hf
        · exact hti
      cases ti with
      | none => exact absurd hti (by simp [jsTruthyStr])
      | some t =>
        have ht : (t != "") = true := hti
        refine ⟨mkReflection (u.getD "")
          (match date with
            | some d => if d != "" then d else todayOf n
            | none => todayOf n) dA c, ?_⟩
        simp [analyzeDailyRouteV1, hu, ht, hs, hd]
  · intro res u date ti n c i st hu hti hs
    simp [analyzeDailyRouteV2, hu, hti, hs]
  · intro res u date ti n c i st dA hu hti hs hd
    refine ⟨mkReflection (u.getD "")
      (match date with
        | some d => if d != "" then d else todayOf n
        | none => todayOf n) dA c, ?_⟩
    simp [analyzeDailyRouteV2, hu, hti, hs, hd]

/-- C10 witness: a failed analysis yields 500 and an unchanged (empty) store;
a successful one appends exactly one record. -/
theorem claim10_witness :
    analyzeDailyRouteV1 (fun _ => failResult) (fun _ => failResult)
      (some "u") none (some "hi") none "2026-01-05T00:00:00.000Z" 0 "idA" [] =
      (⟨500, false, some "Analysis failed", some "boom"⟩, []) ∧
    (∃ rec, analyzeDailyRouteV2 (fun _ => okResult)
      (some "u") none (some "hi") "2026-01-05T00:00:00.000Z" 0 "idB" [] =
      (⟨200, true, none, none⟩, [("idB", rec)])) := by
  constructor
  · exact claim10_persist_iff.1 failResult (some "u") none (some "hi") none
      "2026-01-05T00:00:00.000Z" 0 "idA" [] rfl (Or.inr rfl) rfl
  · exact claim10_persist_iff.2.2.2 okResult (some "u") none (some "hi")
      "2026-01-05T00:00:00.000Z" 0 "idB" [] sampleAnalysisT rfl rfl rfl rfl

end MindMirror
